import Mathlib

/-!
Verification of the touchosc2midi bridge (src/touchosc2midi/touchosc2midi.py)
against its natural-language specification.

The embedding below models the pure data path of the bridge:

* `mido_parse` models the external dependency `mido.parse` (a byte-stream
  MIDI parser that returns the first complete message found in a byte list,
  or nothing when no complete message is present).  MIDI messages are
  represented by their byte form (`List Nat`); an `Except` error models the
  exception mido raises on an undefined status byte.
* `message_from_oscmidipayload` and `message_to_oscmidipayload` are the two
  wire-codec functions of the source, translated line by line.
* `callback_on_midi` models the inner callback built by
  `create_callback_on_midi` (outbound relay); `callback_on_osc` models the
  inner callback built by `create_callback_on_osc` (inbound relay);
  `server_dispatch` models the liblo server with the single method
  registered in `main` (lines 125-126).
* `resolve_target` and `PORT` model the peer resolution of `main`
  (lines 118-128).
-/

instance {ε α : Type} [DecidableEq ε] [DecidableEq α] : DecidableEq (Except ε α) := fun x y =>
  match x, y with
  | .ok a, .ok b =>
      if h : a = b then .isTrue (by rw [h]) else .isFalse (by simp [h])
  | .error a, .error b =>
      if h : a = b then .isTrue (by rw [h]) else .isFalse (by simp [h])
  | .ok _, .error _ => .isFalse (by simp)
  | .error _, .ok _ => .isFalse (by simp)

/-- Number of data bytes that follow a MIDI status byte, for status bytes
that head a fixed-size message (channel messages `0x80-0xEF` and the
system-common messages); realtime, sysex and undefined statuses are
handled separately by the parser. -/
def status_len (s : Nat) : Nat :=
  if s < 0xC0 then 2          -- note_off, note_on, polytouch, control_change
  else if s < 0xE0 then 1     -- program_change, aftertouch
  else if s < 0xF0 then 2     -- pitchwheel
  else if s = 0xF1 then 1     -- quarter_frame
  else if s = 0xF2 then 2     -- songpos
  else if s = 0xF3 then 1     -- song_select
  else 0                      -- tune_request (0xF6)

/-- Name of the mido message type for a message with the given byte form
(head byte is the status byte).  Only the value at `0xF8` (`"clock"`) is
branched on by the source, but the full table follows mido's naming. -/
def msg_type (b : List Nat) : String :=
  match b with
  | [] => ""
  | s :: _ =>
    if s < 0x80 then "" else
    if s < 0x90 then "note_off" else
    if s < 0xA0 then "note_on" else
    if s < 0xB0 then "polytouch" else
    if s < 0xC0 then "control_change" else
    if s < 0xD0 then "program_change" else
    if s < 0xE0 then "aftertouch" else
    if s < 0xF0 then "pitchwheel" else
    if s = 0xF0 then "sysex" else
    if s = 0xF1 then "quarter_frame" else
    if s = 0xF2 then "songpos" else
    if s = 0xF3 then "song_select" else
    if s = 0xF6 then "tune_request" else
    if s = 0xF8 then "clock" else
    if s = 0xFA then "start" else
    if s = 0xFB then "continue" else
    if s = 0xFC then "stop" else
    if s = 0xFE then "active_sensing" else
    if s = 0xFF then "reset" else ""

/-- State of the byte-stream MIDI parser: between messages, inside a
fixed-size message, or inside a system-exclusive message. -/
inductive ParserState where
  | idle : ParserState
  | pending (status : Nat) (need : Nat) (got : List Nat) : ParserState
  | inSysex (got : List Nat) : ParserState

/-- One pass of the byte-stream MIDI parser: feed the bytes left to right
and return the byte form of the FIRST complete message, `none` when the
bytes run out first, or an error on an undefined status byte.  Stray data
bytes outside a message are skipped; a realtime byte (`0xF8-0xFF`) is
delivered immediately; a status byte aborts any incomplete message. -/
def feed_bytes : List Nat → ParserState → Except String (Option (List Nat))
  | [], _ => .ok none
  | b :: rest, st =>
    if 0xF8 ≤ b then
      if b = 0xF9 ∨ b = 0xFD then .error "undefined status byte"
      else .ok (some [b])
    else if 0x80 ≤ b then
      if b = 0xF0 then feed_bytes rest (.inSysex [])
      else if b = 0xF7 then
        match st with
        | .inSysex ds => .ok (some ((0xF0 :: ds) ++ [0xF7]))
        | _ => feed_bytes rest .idle
      else if b = 0xF4 ∨ b = 0xF5 then .error "undefined status byte"
      else if status_len b = 0 then .ok (some [b])
      else feed_bytes rest (.pending b (status_len b) [])
    else
      match st with
      | .idle => feed_bytes rest .idle
      | .inSysex ds => feed_bytes rest (.inSysex (ds ++ [b]))
      | .pending s n ds =>
        if n ≤ ds.length + 1 then .ok (some (s :: (ds ++ [b])))
        else feed_bytes rest (.pending s n (ds ++ [b]))

/-- Model of `mido.parse` (external dependency): parse a byte list and
return the first complete MIDI message found, by its byte form. -/
def mido_parse (data : List Nat) : Except String (Option (List Nat)) :=
  feed_bytes data .idle

/-- Source lines 48-54: `message_from_oscmidipayload(bites)` takes the OSC
argument list, keeps `bites[0]` (the blob), reverses it and keeps the
first four bytes (`bites[0][::-1][0:4]`), then runs `mido.parse`.
An empty argument list would be a Python `IndexError`. -/
def message_from_oscmidipayload (bites : List (List Nat)) :
    Except String (Option (List Nat)) :=
  match bites with
  | [] => .error "IndexError"
  | blob :: _ => mido_parse (blob.reverse.take 4)

/-- Source lines 57-64: `message_to_oscmidipayload(message)` builds
`bites = [0] + message.bytes()`, asserts `len(bites) == 4`, and returns
`(bites[0], bites[3], bites[2], bites[1])`.  The argument here is the byte
form `message.bytes()`; the failed assert is the error case. -/
def message_to_oscmidipayload (msgBytes : List Nat) : Except String (List Nat) :=
  match msgBytes with
  | [b1, b2, b3] => .ok [0, b3, b2, b1]
  | _ => .error "AssertionError: len(bites) == 4"

/-- An OSC message argument: a midi blob (type tag "m") or a float
(type tag "f").  Python's `float(b[2]) / 128.0` is exact for byte values,
so the float value is modelled as a rational. -/
inductive OscArg where
  | blob (bytes : List Nat) : OscArg
  | float (value : ℚ) : OscArg
deriving DecidableEq

/-- An OSC message as built by `liblo.Message(path)` plus `osc.add(arg)`. -/
structure OscMessage where
  path : String
  args : List OscArg
deriving DecidableEq

/-- Source lines 81-96: the callback built by `create_callback_on_midi`.
Input is the mido message's byte form `b = message.bytes()`.  A `"clock"`
message returns immediately (`none`: nothing sent).  Otherwise the code
sends `liblo.Message('/midi/8/' + str(b[1]))` carrying the single float
argument `float(b[2]) / 128.0` to the fixed target; accessing `b[1]` or
`b[2]` on a shorter message would be a Python `IndexError`. -/
def callback_on_midi (b : List Nat) : Except String (Option OscMessage) :=
  if msg_type b = "clock" then .ok none
  else
    match b with
    | _ :: b1 :: b2 :: _ =>
        .ok (some ⟨"/midi/8/" ++ toString b1, [OscArg.float ((b2 : ℚ) / 128)]⟩)
    | _ => .error "IndexError"

/-- Source lines 67-78: the callback built by `create_callback_on_osc`.
It asserts `path == '/midi'` and `types == 'm'`, then calls
`sink.send(message_from_oscmidipayload(args))`; the returned value is what
reaches the sink (`none` when `mido.parse` produced no message). -/
def callback_on_osc (path types : String) (args : List (List Nat)) :
    Except String (Option (List Nat)) :=
  if path ≠ "/midi" then .error "AssertionError: path == /midi"
  else if types ≠ "m" then .error "AssertionError: types == m"
  else message_from_oscmidipayload args

/-- Model of the liblo server dispatch with the single method registered in
`main` (lines 125-126): `server.add_method('/midi', 'm', callback)`.
Per liblo semantics a registered method receives only the messages whose
path and typespec both match; with no fallback method registered, any
other message is dropped without invoking a callback (`none`). -/
def server_dispatch (path types : String) (args : List (List Nat)) :
    Option (Except String (Option (List Nat))) :=
  if path = "/midi" ∧ types = "m" then some (callback_on_osc path types args)
  else none

/-- Source line 32. -/
def PORT : Nat := 12345

/-- Source line 125: `server = liblo.ServerThread(PORT)`. -/
def listening_port : Nat := PORT

/-- Dotted-quad value of an IPv4 address as a 32-bit number. -/
def ipv4_to_nat (a b c d : Nat) : Nat := ((a * 256 + b) * 256 + c) * 256 + d

/-- Render a 32-bit IPv4 value as a dotted-quad string. -/
def nat_to_ipv4_str (ip : Nat) : String :=
  toString (ip / 16777216 % 256) ++ "." ++ toString (ip / 65536 % 256) ++ "."
    ++ toString (ip / 256 % 256) ++ "." ++ toString (ip % 256)

/-- `IPNetwork(ip + "/16").broadcast` of netaddr: keep the upper 16 network
bits and set all 16 host bits. -/
def broadcast_slash16 (ip : Nat) : Nat := ip / 65536 * 65536 + 65535

/-- The resolved send target: `liblo.Address(target_address, PORT + 1)`. -/
structure Target where
  host : String
  port : Nat
deriving DecidableEq

/-- Source lines 118-128: `target_address = options.get('--ip')`; when that
is falsy (absent or empty), the broadcast address of `main_ip() + "/16"`
is used instead; the target port is `PORT + 1`. -/
def resolve_target (ipOption : Option String) (mainIp : Nat) : Target :=
  match ipOption with
  | some a =>
      if a = "" then ⟨nat_to_ipv4_str (broadcast_slash16 mainIp), PORT + 1⟩
      else ⟨a, PORT + 1⟩
  | none => ⟨nat_to_ipv4_str (broadcast_slash16 mainIp), PORT + 1⟩

-- sanity checks on concrete bytes
example : mido_parse [0x90, 60, 100, 0] = .ok (some [0x90, 60, 100]) := by decide
example : mido_parse [0x64, 0x3C, 0x90, 0x00] = .ok none := by decide
example : message_to_oscmidipayload [0x90, 60, 100] = .ok [0, 100, 60, 0x90] := by decide
example : message_from_oscmidipayload [[0, 100, 60, 0x90]] = .ok (some [0x90, 60, 100]) := by
  decide
example : message_from_oscmidipayload [[0x00, 0x90, 0x3C, 0x64]] = .ok none := by decide
example : callback_on_midi [0xF8] = .ok none := by decide
example : callback_on_midi [0x90, 60, 100]
    = .ok (some ⟨"/midi/8/60", [OscArg.float (100 / 128)]⟩) := rfl
example : server_dispatch "/foo" "m" [[0, 0, 0, 0]] = none := by decide
example : resolve_target none (ipv4_to_nat 192 168 1 7)
    = ⟨"192.168.255.255", 12346⟩ := by decide
example : resolve_target (some "10.0.0.1") 0 = ⟨"10.0.0.1", 12346⟩ := by decide

/-! Step lemmas for the byte-stream parser, used to reason about
`mido_parse` on symbolic bytes. -/

lemma feed_bytes_start_pending (b : Nat) (rest : List Nat) (st : ParserState)
    (h8 : 0x80 ≤ b) (hf : b < 0xF8) (h0 : b ≠ 0xF0) (h7 : b ≠ 0xF7)
    (h4 : b ≠ 0xF4) (h5 : b ≠ 0xF5) (hl : status_len b ≠ 0) :
    feed_bytes (b :: rest) st = feed_bytes rest (.pending b (status_len b) []) := by
  have t1 : ¬ (0xF8 ≤ b) := by omega
  have t2 : ¬ (b = 0xF9 ∨ b = 0xFD) := by omega
  simp [feed_bytes, t1, t2, h8, h0, h7, h4, h5, hl]

lemma feed_bytes_data_more (b : Nat) (rest : List Nat) (s n : Nat) (ds : List Nat)
    (hb : b < 0x80) (h : ¬ n ≤ ds.length + 1) :
    feed_bytes (b :: rest) (.pending s n ds)
      = feed_bytes rest (.pending s n (ds ++ [b])) := by
  have t1 : ¬ (0xF8 ≤ b) := by omega
  have t2 : ¬ (0x80 ≤ b) := by omega
  simp [feed_bytes, t1, t2, h]

lemma feed_bytes_data_done (b : Nat) (rest : List Nat) (s n : Nat) (ds : List Nat)
    (hb : b < 0x80) (h : n ≤ ds.length + 1) :
    feed_bytes (b :: rest) (.pending s n ds) = .ok (some (s :: (ds ++ [b]))) := by
  have t1 : ¬ (0xF8 ≤ b) := by omega
  have t2 : ¬ (0x80 ≤ b) := by omega
  simp [feed_bytes, t1, t2, h]

/-! Claim theorems. -/

/-- C2 counterexample: at the concrete 3-byte note_on event
(status 0x90, data1 60, data2 100), the direct composition
`decode(encode(e))` DOES equal `e`: `decode` reverses the payload
(`bites[0][::-1]`), which exactly undoes the byte reversal of `encode`,
so the claimed inequality fails. -/
theorem decode_encode_identity_at_note_on :
    (message_to_oscmidipayload [0x90, 60, 100]).bind
        (fun payload => message_from_oscmidipayload [payload])
      = .ok (some [0x90, 60, 100])
    ∧ msg_type [0x90, 60, 100] = "note_on" := by
  exact ⟨by decide, by decide⟩

/-- C2 (amended): for every instrument event with a 3-byte wire form
(status byte `s` heading a two-data-byte message, data bytes `d1 d2 < 0x80`),
the direct composition `decode(encode(e))` EQUALS `e`: encode emits
`[0, d2, d1, s]` and decode reverses the payload to `[s, d1, d2, 0]`,
which `mido.parse` reads back as the original message. -/
theorem decode_encode_is_identity (s d1 d2 : Nat) (hs : 0x80 ≤ s) (hsf : s < 0xF8)
    (h0 : s ≠ 0xF0) (h4 : s ≠ 0xF4) (h5 : s ≠ 0xF5) (h7 : s ≠ 0xF7)
    (hlen : status_len s = 2) (hd1 : d1 < 0x80) (hd2 : d2 < 0x80) :
    (message_to_oscmidipayload [s, d1, d2]).bind
        (fun payload => message_from_oscmidipayload [payload])
      = .ok (some [s, d1, d2]) := by
  show mido_parse (([0, d2, d1, s] : List Nat).reverse.take 4) = .ok (some [s, d1, d2])
  have e2 : (([0, d2, d1, s] : List Nat).reverse.take 4) = [s, d1, d2, 0] := by simp
  rw [e2]
  show feed_bytes [s, d1, d2, 0] .idle = .ok (some [s, d1, d2])
  rw [feed_bytes_start_pending s [d1, d2, 0] .idle hs hsf h0 h7 h4 h5 (by omega)]
  rw [hlen]
  rw [feed_bytes_data_more d1 [d2, 0] s 2 [] hd1 (by simp)]
  rw [show ([] : List Nat) ++ [d1] = [d1] from rfl]
  rw [feed_bytes_data_done d2 [0] s 2 [d1] hd2 (by simp)]
  simp

/-- Witness for `decode_encode_is_identity` at the note_on event
(0x90, 60, 100). -/
theorem decode_encode_is_identity_witness :
    (0x80 ≤ 0x90 ∧ (0x90 : Nat) < 0xF8 ∧ status_len 0x90 = 2
      ∧ (60 : Nat) < 0x80 ∧ (100 : Nat) < 0x80)
    ∧ (message_to_oscmidipayload [0x90, 60, 100]).bind
        (fun payload => message_from_oscmidipayload [payload])
      = .ok (some [0x90, 60, 100]) :=
  ⟨by decide, decode_encode_is_identity 0x90 60 100 (by decide) (by decide) (by decide)
    (by decide) (by decide) (by decide) (by decide) (by decide) (by decide)⟩

/-- C3 counterexample: on the spec's payload `[0x00, 0x90, 0x3C, 0x64]`
(claimed receive order [port, status, data1, data2]) `decode` yields NO
message at all: the reversal turns it into `[0x64, 0x3C, 0x90, 0x00]`,
whose leading bytes are stray data bytes and whose trailing `0x90` starts
a message that never completes. -/
theorem decode_spec_order_payload_yields_none :
    message_from_oscmidipayload [[0x00, 0x90, 0x3C, 0x64]] = .ok none := by decide

/-- C3 (amended): `decode` interprets the payload back to front (the
client's order [port-id, data2, data1, status]); it is the payload
`[0x00, 0x64, 0x3C, 0x90]` that decodes to the note_on event with
data1 = 60 and data2 = 100, while the spec's claimed payload
`[0x00, 0x90, 0x3C, 0x64]` produces no event. -/
theorem decode_touchosc_order_note_on :
    message_from_oscmidipayload [[0x00, 0x64, 0x3C, 0x90]] = .ok (some [0x90, 0x3C, 0x64])
    ∧ msg_type [0x90, 0x3C, 0x64] = "note_on"
    ∧ ((0x3C : Nat) = 60 ∧ (0x64 : Nat) = 100)
    ∧ message_from_oscmidipayload [[0x00, 0x90, 0x3C, 0x64]] = .ok none := by decide

/-- C6: `message_to_oscmidipayload` succeeds exactly on events whose byte
form is 3 bytes (so that `[0] + bytes` has length 4 and the `assert`
passes); on any other byte length the assertion fails. -/
theorem encode_succeeds_iff_three_bytes (msgBytes : List Nat) :
    (∃ payload, message_to_oscmidipayload msgBytes = .ok payload)
      ↔ msgBytes.length = 3 := by
  match msgBytes with
  | [] => simp [message_to_oscmidipayload]
  | [_] => simp [message_to_oscmidipayload]
  | [_, _] => simp [message_to_oscmidipayload]
  | [_, _, _] => simp [message_to_oscmidipayload]
  | _ :: _ :: _ :: _ :: _ => simp [message_to_oscmidipayload]

/-- C7: a `"clock"` event makes the outbound callback return immediately:
nothing is encoded and nothing is sent to the peer. -/
theorem clock_events_not_relayed (b : List Nat) (h : msg_type b = "clock") :
    callback_on_midi b = .ok none := by
  simp [callback_on_midi, h]

/-- Witness for `clock_events_not_relayed` at the clock message `[0xF8]`. -/
theorem clock_events_not_relayed_witness :
    msg_type [0xF8] = "clock" ∧ callback_on_midi [0xF8] = .ok none :=
  ⟨by decide, clock_events_not_relayed [0xF8] (by decide)⟩

/-- C8: `encode` emits the reversed send order `[0, data2, data1, status]`
for every 3-byte event; in particular the note_on event (0x90, 60, 100)
encodes to `[0x00, 0x64, 0x3C, 0x90]`. -/
theorem encode_reversed_send_order (s d1 d2 : Nat) :
    message_to_oscmidipayload [s, d1, d2] = .ok [0, d2, d1, s]
    ∧ message_to_oscmidipayload [0x90, 60, 100] = .ok [0x00, 0x64, 0x3C, 0x90] :=
  ⟨rfl, by decide⟩

/-- C10: `decode` performs no length check; on any payload of length at
least four (written `q ++ [b4, b3, b2, b1]`) the result is the parse of the
LAST four bytes in reversed order, and coincides with the result on just
those four bytes (longer payloads are silently truncated). -/
theorem decode_depends_on_last_four_reversed (q : List Nat) (b4 b3 b2 b1 : Nat) :
    message_from_oscmidipayload [q ++ [b4, b3, b2, b1]] = mido_parse [b1, b2, b3, b4]
    ∧ message_from_oscmidipayload [q ++ [b4, b3, b2, b1]]
        = message_from_oscmidipayload [[b4, b3, b2, b1]] := by
  have key : (q ++ [b4, b3, b2, b1]).reverse.take 4 = [b1, b2, b3, b4] := by
    rw [List.reverse_append]
    show (([b1, b2, b3, b4] : List Nat) ++ q.reverse).take 4 = [b1, b2, b3, b4]
    exact List.take_left' rfl
  constructor
  · show mido_parse ((q ++ [b4, b3, b2, b1]).reverse.take 4) = mido_parse [b1, b2, b3, b4]
    rw [key]
  · show mido_parse ((q ++ [b4, b3, b2, b1]).reverse.take 4)
        = mido_parse (([b4, b3, b2, b1] : List Nat).reverse.take 4)
    rw [key]
    rfl

/-- C4 counterexample: the 5-byte payload `[0x00, 0x00, 0x64, 0x3C, 0x90]`
has length ≠ 4, yet `decode` does not fail — there is no length check and
no `MalformedPayloadError` — and the inbound callback hands the decoded
note_on event to the sink. -/
theorem decode_length_five_delivers_event :
    ([0x00, 0x00, 0x64, 0x3C, 0x90] : List Nat).length = 5
    ∧ callback_on_osc "/midi" "m" [[0x00, 0x00, 0x64, 0x3C, 0x90]]
        = .ok (some [0x90, 0x3C, 0x64]) := by decide

/-- C4 (amended): for every payload whose length differs from 4, the
inbound path raises no error at all: it simply parses the last
`min(4, length)` bytes in reversed order and whatever message results is
what reaches the sink. -/
theorem decode_no_length_check (p : List Nat) (h : p.length ≠ 4) :
    callback_on_osc "/midi" "m" [p]
      = mido_parse ((p.drop (p.length - 4)).reverse) := by
  show mido_parse (p.reverse.take 4) = mido_parse ((p.drop (p.length - 4)).reverse)
  rw [List.take_reverse]

/-- Witness for `decode_no_length_check` at the 1-byte payload `[0xF8]`. -/
theorem decode_no_length_check_witness :
    ([0xF8] : List Nat).length ≠ 4
    ∧ callback_on_osc "/midi" "m" [[0xF8]]
        = mido_parse ((([0xF8] : List Nat).drop (([0xF8] : List Nat).length - 4)).reverse) :=
  ⟨by decide, decode_no_length_check [0xF8] (by decide)⟩

/-- C5: an inbound message whose path is not "/midi" or whose typespec is
not "m" never matches the single registered method, so the server drops it:
no callback runs, the sink is not invoked, and no exception is raised. -/
theorem inbound_mismatch_discarded (path types : String) (args : List (List Nat))
    (h : path ≠ "/midi" ∨ types ≠ "m") :
    server_dispatch path types args = none := by
  simp only [server_dispatch]
  rw [if_neg (by tauto)]

/-- Witness for `inbound_mismatch_discarded` at path "/foo". -/
theorem inbound_mismatch_discarded_witness :
    (("/foo" : String) ≠ "/midi" ∨ ("m" : String) ≠ "m")
    ∧ server_dispatch "/foo" "m" [[0x00, 0x90, 0x3C, 0x64]] = none :=
  ⟨Or.inl (by decide),
    inbound_mismatch_discarded "/foo" "m" [[0x00, 0x90, 0x3C, 0x64]] (Or.inl (by decide))⟩

/-- C1 counterexample: for the non-clock note_on event (0x90, 60, 100) the
outbound callback does NOT send an addressed message "/midi" with a blob
argument: it sends the address "/midi/8/60" carrying a single float
argument 100/128, and `message_to_oscmidipayload` is never applied. -/
theorem callback_on_midi_not_midi_blob :
    callback_on_midi [0x90, 60, 100]
      = .ok (some ⟨"/midi/8/60", [OscArg.float (100 / 128)]⟩)
    ∧ ("/midi/8/60" : String) ≠ "/midi" :=
  ⟨rfl, by decide⟩

/-- C1 (amended): for every non-clock event whose byte form has at least
three bytes, the outbound callback sends to the fixed peer a message with
address `"/midi/8/" ++ toString b[1]` and a single FLOAT argument
`b[2] / 128`; the `/midi`-with-blob form (`message_to_oscmidipayload`) is
not used on this path. -/
theorem callback_on_midi_sends_float_control_path (b0 b1 b2 : Nat) (rest : List Nat)
    (h : msg_type (b0 :: b1 :: b2 :: rest) ≠ "clock") :
    callback_on_midi (b0 :: b1 :: b2 :: rest)
      = .ok (some ⟨"/midi/8/" ++ toString b1, [OscArg.float ((b2 : ℚ) / 128)]⟩) := by
  simp [callback_on_midi, h]

/-- Witness for `callback_on_midi_sends_float_control_path` at the note_on
event (0x90, 60, 100). -/
theorem callback_on_midi_sends_float_control_path_witness :
    msg_type [0x90, 60, 100] ≠ "clock"
    ∧ callback_on_midi [0x90, 60, 100]
        = .ok (some ⟨"/midi/8/" ++ toString 60, [OscArg.float ((100 : ℚ) / 128)]⟩) :=
  ⟨by decide, callback_on_midi_sends_float_control_path 0x90 60 100 [] (by decide)⟩

/-- C9: the listening port is fixed at 12345; with no (or an empty)
`--ip` option the peer host is the broadcast address of the local IP taken
as a /16 network, and with an explicit address that address is used
unchanged; in both cases the peer port is the listening port plus 1. -/
theorem target_resolution (a b c d ip : Nat) (s : String)
    (ha : a < 256) (hb : b < 256) (hc : c < 256) (hd : d < 256) (hs : s ≠ "") :
    listening_port = 12345
    ∧ resolve_target (some s) ip = ⟨s, listening_port + 1⟩
    ∧ resolve_target none (ipv4_to_nat a b c d)
        = ⟨nat_to_ipv4_str (ipv4_to_nat a b 255 255), listening_port + 1⟩ := by
  refine ⟨rfl, ?_, ?_⟩
  · simp [resolve_target, hs, listening_port]
  · have hbc : broadcast_slash16 (ipv4_to_nat a b c d) = ipv4_to_nat a b 255 255 := by
      unfold broadcast_slash16 ipv4_to_nat
      omega
    simp [resolve_target, listening_port, hbc]

/-- Witness for `target_resolution` at local IP 192.168.1.7 and explicit
address "10.0.0.1". -/
theorem target_resolution_witness :
    ((192 : Nat) < 256 ∧ ("10.0.0.1" : String) ≠ "")
    ∧ (listening_port = 12345
      ∧ resolve_target (some "10.0.0.1") (ipv4_to_nat 10 0 0 1) = ⟨"10.0.0.1", listening_port + 1⟩
      ∧ resolve_target none (ipv4_to_nat 192 168 1 7)
          = ⟨nat_to_ipv4_str (ipv4_to_nat 192 168 255 255), listening_port + 1⟩) :=
  ⟨⟨by decide, by decide⟩,
    target_resolution 192 168 1 7 (ipv4_to_nat 10 0 0 1) "10.0.0.1"
      (by decide) (by decide) (by decide) (by decide) (by decide)⟩
